import Mathlib

/-!
Verification of the QR-generator SaaS backend services
(`subscriptionService.ts` and `qrCodeService.ts`) against their
natural-language specification.  The TypeScript services are shallowly
embedded: pure computations become Lean functions, the Prisma-backed
subscription store becomes an explicit list of records with state-passing
operations, and the imaging library (sharp / canvas) becomes an abstract
environment of encode / composite functions.
-/

/-! ## Subscription service: data model (`subscriptionService.ts`) -/

inductive PlanType where
  | TRIAL | FREE | PRO | BUSINESS | ENTERPRISE
deriving DecidableEq, Repr

inductive SubStatus where
  | ACTIVE | TRIALING | PAST_DUE | CANCELED | EXPIRED
deriving DecidableEq, Repr

/-- `UsageLimits` from `types`: quotas are integers where `-1` means
unlimited (`PLAN_LIMITS` table entries). -/
structure UsageLimits where
  qrCodesPerMonth : Int
  dynamicQrCodes : Int
  apiCallsPerMonth : Int
  logoUploads : Bool
  analytics : String
  exportFormats : List String
  watermark : Bool
deriving DecidableEq, Repr

/-- The literal `SubscriptionService.PLAN_LIMITS` configuration table. -/
def planLimits : PlanType → UsageLimits
  | PlanType.TRIAL =>
      { qrCodesPerMonth := 100, dynamicQrCodes := 10, apiCallsPerMonth := 1000,
        logoUploads := true, analytics := "basic",
        exportFormats := ["png", "jpg", "svg", "pdf"], watermark := false }
  | PlanType.FREE =>
      { qrCodesPerMonth := 10, dynamicQrCodes := 0, apiCallsPerMonth := 0,
        logoUploads := false, analytics := "none",
        exportFormats := ["png"], watermark := true }
  | PlanType.PRO =>
      { qrCodesPerMonth := -1, dynamicQrCodes := 50, apiCallsPerMonth := 10000,
        logoUploads := true, analytics := "advanced",
        exportFormats := ["png", "jpg", "svg", "pdf"], watermark := false }
  | PlanType.BUSINESS =>
      { qrCodesPerMonth := -1, dynamicQrCodes := 200, apiCallsPerMonth := 50000,
        logoUploads := true, analytics := "advanced",
        exportFormats := ["png", "jpg", "svg", "pdf"], watermark := false }
  | PlanType.ENTERPRISE =>
      { qrCodesPerMonth := -1, dynamicQrCodes := -1, apiCallsPerMonth := -1,
        logoUploads := true, analytics := "advanced",
        exportFormats := ["png", "jpg", "svg", "pdf"], watermark := false }

/-- A Prisma `Subscription` row.  Timestamps are milliseconds since epoch. -/
structure Subscription where
  id : Nat
  userId : Nat
  planType : PlanType
  status : SubStatus
  trialStart : Option Int
  trialEnd : Option Int
  currentPeriodEnd : Option Int
  createdAt : Int
deriving DecidableEq, Repr

/-- The `SubscriptionInfo` value returned by `getSubscriptionInfo`. -/
structure SubscriptionInfo where
  planType : PlanType
  status : SubStatus
  trialDaysLeft : Int
  isTrialActive : Bool
  currentPeriodEnd : Option Int
deriving DecidableEq, Repr

def msPerDay : Int := 86400000

/-- Ceiling division on integers (JS `Math.ceil(a / b)` for `b > 0`). -/
def ceilDiv (a b : Int) : Int := -((-a).fdiv b)

/-- The pure computation inside `getSubscriptionInfo`: from the selected
subscription row and the current time, derive `trialDaysLeft` (JS
`Math.max(0, Math.ceil((trialEnd - now) / msPerDay))`) and
`isTrialActive` (`trialDaysLeft > 0`), which stay `0` / `false` unless
the row is a `TRIAL` with a `trialEnd` set. -/
def subscriptionInfoOf (sub : Subscription) (now : Int) : SubscriptionInfo :=
  match sub.trialEnd with
  | some te =>
      if sub.planType = PlanType.TRIAL then
        let d := max 0 (ceilDiv (te - now) msPerDay)
        { planType := sub.planType, status := sub.status, trialDaysLeft := d,
          isTrialActive := decide (0 < d), currentPeriodEnd := sub.currentPeriodEnd }
      else
        { planType := sub.planType, status := sub.status, trialDaysLeft := 0,
          isTrialActive := false, currentPeriodEnd := sub.currentPeriodEnd }
  | none =>
      { planType := sub.planType, status := sub.status, trialDaysLeft := 0,
        isTrialActive := false, currentPeriodEnd := sub.currentPeriodEnd }

/-! ## Usage gate: `canPerformAction` -/

inductive ActionKind where
  | qr_generated | api_call | dynamic_qr | logo_upload
deriving DecidableEq, Repr

/-- The `{ allowed, reason?, upgradeRequired? }` result object. -/
structure ActionResult where
  allowed : Bool
  reason : Option String
  upgradeRequired : Option Bool
deriving DecidableEq, Repr

/-- `getPlanLimits`: absent subscription info falls back to the FREE tier
limits, otherwise the plan's entry of the `PLAN_LIMITS` table. -/
def planTypeOf (info : Option SubscriptionInfo) : PlanType :=
  match info with
  | none => PlanType.FREE
  | some i => i.planType

/-- The trial-expiration guard at the top of `canPerformAction`:
`subscriptionInfo?.planType === 'TRIAL' && !subscriptionInfo.isTrialActive`. -/
def trialExpired (info : Option SubscriptionInfo) : Bool :=
  match info with
  | some i => decide (i.planType = PlanType.TRIAL) && !i.isTrialActive
  | none => false

/-- `SubscriptionService.canPerformAction`, with the database reads made
explicit parameters: `qrUsage` / `apiUsage` are the current-calendar-month
aggregated `QR_GENERATED` / `API_CALL` counters (`getCurrentMonthlyUsage`),
and `dynCount` is the live count of active dynamic QR codes. -/
def canPerformAction (info : Option SubscriptionInfo)
    (qrUsage apiUsage dynCount : Nat) (action : ActionKind) : ActionResult :=
  let limits := planLimits (planTypeOf info)
  if trialExpired info then
    { allowed := false, reason := some "Trial has expired", upgradeRequired := some true }
  else
    match action with
    | ActionKind.logo_upload =>
        if !limits.logoUploads then
          { allowed := false, reason := some "Logo uploads not available in your plan",
            upgradeRequired := some true }
        else
          { allowed := true, reason := none, upgradeRequired := none }
    | ActionKind.qr_generated =>
        if limits.qrCodesPerMonth ≠ -1 then
          if (qrUsage : Int) ≥ limits.qrCodesPerMonth then
            { allowed := false, reason := some "Monthly QR code limit reached",
              upgradeRequired := some true }
          else
            { allowed := true, reason := none, upgradeRequired := none }
        else
          { allowed := true, reason := none, upgradeRequired := none }
    | ActionKind.api_call =>
        if limits.apiCallsPerMonth = 0 then
          { allowed := false, reason := some "API access not available in your plan",
            upgradeRequired := some true }
        else if limits.apiCallsPerMonth ≠ -1 then
          if (apiUsage : Int) ≥ limits.apiCallsPerMonth then
            { allowed := false, reason := some "Monthly API call limit reached",
              upgradeRequired := some true }
          else
            { allowed := true, reason := none, upgradeRequired := none }
        else
          { allowed := true, reason := none, upgradeRequired := none }
    | ActionKind.dynamic_qr =>
        if limits.dynamicQrCodes = 0 then
          { allowed := false, reason := some "Dynamic QR codes not available in your plan",
            upgradeRequired := some true }
        else if limits.dynamicQrCodes ≠ -1 then
          if (dynCount : Int) ≥ limits.dynamicQrCodes then
            { allowed := false, reason := some "Dynamic QR code limit reached",
              upgradeRequired := some true }
          else
            { allowed := true, reason := none, upgradeRequired := none }
        else
          { allowed := true, reason := none, upgradeRequired := none }

/-! ## Content formatter (`QrCodeService.generateQrContent`) -/

/-- JS `handle.replace('@', '')`: removes only the first occurrence of the
search string, here the single character `'@'`. -/
def removeFirstAmp : List Char → List Char
  | [] => []
  | c :: cs => if c = '@' then cs else c :: removeFirstAmp cs

def stripFirstAt (s : String) : String := String.mk (removeFirstAmp s.data)

/-- The `socialUrls` object literal in the `SOCIAL` case, as a partial map:
JS property access on a missing key yields `undefined` (`none`). -/
def socialUrlsLookup (p : String) : Option String :=
  if p = "twitter" then some "https://twitter.com/"
  else if p = "instagram" then some "https://instagram.com/"
  else if p = "facebook" then some "https://facebook.com/"
  else if p = "linkedin" then some "https://linkedin.com/in/"
  else if p = "youtube" then some "https://youtube.com/@"
  else if p = "tiktok" then some "https://tiktok.com/@"
  else if p = "github" then some "https://github.com/"
  else none

/-- JS `x || dflt` on an optional string: `undefined` and `""` are falsy. -/
def jsFalsyOr (v : Option String) (dflt : String) : String :=
  match v with
  | none => dflt
  | some s => if s = "" then dflt else s

/-- JS string concatenation `u + h` where `u` may be `undefined`:
`undefined` coerces to the literal string "undefined". -/
def jsUndefinedCoerce (v : Option String) : String :=
  match v with
  | some s => s
  | none => "undefined"

/-- The `SOCIAL` branch of `generateQrContent`:
`(socialUrls as any)[data.socialPlatform || 'twitter'] +
 (data.socialHandle || '').replace('@', '')`. -/
def socialContent (socialPlatform socialHandle : Option String) : String :=
  let platform := jsFalsyOr socialPlatform "twitter"
  let handle := stripFirstAt (socialHandle.getD "")
  jsUndefinedCoerce (socialUrlsLookup platform) ++ handle

/-! ## VCARD branch of `generateQrContent` -/

/-- JS truthiness of an optional string: `undefined` and `""` are falsy. -/
def jsTruthy (v : Option String) : Bool :=
  match v with
  | none => false
  | some s => !decide (s = "")

/-- Whitespace as trimmed by JS `String.prototype.trim`. -/
def wsChar (c : Char) : Bool := c = ' ' || c = '\t' || c = '\n' || c = '\r'

def trimChars (l : List Char) : List Char :=
  ((l.dropWhile wsChar).reverse.dropWhile wsChar).reverse

def jsTrim (s : String) : String := String.mk (trimChars s.data)

/-- JS `line.endsWith(':')`. -/
def endsColon (s : String) : Bool :=
  match s.data.getLast? with
  | some c => decide (c = ':')
  | none => false

/-- The vCard line filter: `line => line && !line.endsWith(':')`. -/
def keepLine (l : String) : Bool := !decide (l = "") && !endsColon l

/-- A conditional vCard line: `v ? pfx + v : ''`. -/
def optLine (pfx : String) (v : Option String) : String :=
  if jsTruthy v then pfx ++ v.getD "" else ""

structure VcardData where
  firstName : Option String
  lastName : Option String
  organization : Option String
  phone : Option String
  email : Option String
  url : Option String

/-- The array literal built in the `VCARD` case before filtering. -/
def vcardRawLines (v : VcardData) : List String :=
  ["BEGIN:VCARD",
   "VERSION:3.0",
   jsTrim ("FN:" ++ v.firstName.getD "" ++ " " ++ v.lastName.getD ""),
   optLine "ORG:" v.organization,
   optLine "TEL:" v.phone,
   optLine "EMAIL:" v.email,
   optLine "URL:" v.url,
   "END:VCARD"]

def vcardKeptLines (v : VcardData) : List String := (vcardRawLines v).filter keepLine

/-- The `VCARD` branch of `generateQrContent`: filter the raw lines and
join with a newline. -/
def vcardContent (v : VcardData) : String :=
  String.intercalate "\n" (vcardKeptLines v)

/-- Whether some line of `out` starts with the two characters `c1 c2`
(used to detect the ORG/TEL/EMAIL/URL lines unambiguously). -/
def hasLineHead2 (out : List String) (c1 c2 : Char) : Bool :=
  out.any (fun l => decide (l.data.take 2 = [c1, c2]))

/-! ## Style renderer (`generateStyledQrCode`)

The canvas geometry is embedded over `ℚ` (JS numeric expressions here are
exact on the values involved: `size * 0.25` and halving).  A render is
abstracted as the list of painted dark modules plus the list of logo
drawing operations; the QR library's module grid is a boolean function. -/

def cellSize (size : ℚ) (n : ℕ) : ℚ := size / n

/-- `logoAreaSize = logoBuffer ? size * 0.25 : 0`. -/
def logoAreaSizeOf (size : ℚ) (hasLogo : Bool) : ℚ :=
  if hasLogo then size * (1 / 4) else 0

def logoAreaStart (size : ℚ) (hasLogo : Bool) : ℚ :=
  (size - logoAreaSizeOf size hasLogo) / 2

def logoAreaEnd (size : ℚ) (hasLogo : Bool) : ℚ :=
  logoAreaStart size hasLogo + logoAreaSizeOf size hasLogo

/-- The skip test in the module-drawing loop:
`logoBuffer && x >= logoAreaStart && x <= logoAreaEnd && y >= logoAreaStart && y <= logoAreaEnd`
with `x = col * cellSize`, `y = row * cellSize`. -/
def skipModule (size : ℚ) (n : ℕ) (hasLogo : Bool) (row col : ℕ) : Bool :=
  hasLogo && decide (logoAreaStart size hasLogo ≤ (col : ℚ) * cellSize size n)
          && decide ((col : ℚ) * cellSize size n ≤ logoAreaEnd size hasLogo)
          && decide (logoAreaStart size hasLogo ≤ (row : ℚ) * cellSize size n)
          && decide ((row : ℚ) * cellSize size n ≤ logoAreaEnd size hasLogo)

/-- The double loop of `generateStyledQrCode`: every `(row, col)` cell with
a dark module (`modules.get(col, row)`) that is not skipped for the logo
area gets painted. -/
def paintedModules (dark : ℕ → ℕ → Bool) (n : ℕ) (size : ℚ) (hasLogo : Bool) :
    List (ℕ × ℕ) :=
  ((List.range n).flatMap fun row => (List.range n).map fun col => (row, col)).filter
    fun rc => dark rc.2 rc.1 && !skipModule size n hasLogo rc.1 rc.2

/-- Following the spec's words (for comparison with the code's
`logoAreaStart`/`logoAreaEnd`): the centered square keep-out zone of side
`0.25 × canvasSizePx`, as the set of points it contains. -/
def specKeepOutZone (size x y : ℚ) : Prop :=
  (size - size / 4) / 2 ≤ x ∧ x ≤ (size - size / 4) / 2 + size / 4 ∧
  (size - size / 4) / 2 ≤ y ∧ y ≤ (size - size / 4) / 2 + size / 4

instance (size x y : ℚ) : Decidable (specKeepOutZone size x y) := by
  unfold specKeepOutZone; infer_instance

/-! ## Logo compositor (`addLogoToCanvas`) -/

inductive LogoOp where
  | bgPatch (logoStyle : String)
  | drawLogo (logoStyle : String)
deriving DecidableEq, Repr

/-- `addLogoToCanvas`: `loadImage` the logo buffer; on success paint the
white background patch shaped per `logoStyle` and then the logo itself;
a decode failure is caught, logged and draws nothing. -/
def addLogoToCanvas (decode : List Nat → Option Unit) (logoBuffer : List Nat)
    (logoStyle : String) : List LogoOp :=
  match decode logoBuffer with
  | some _ => [LogoOp.bgPatch logoStyle, LogoOp.drawLogo logoStyle]
  | none => []

structure RenderOutput where
  painted : List (ℕ × ℕ)
  logoOps : List LogoOp
deriving DecidableEq, Repr

/-- `generateStyledQrCode` as the painted modules plus the logo drawing
operations (performed only when a logo buffer is provided). -/
def generateStyledQrCode (dark : ℕ → ℕ → Bool) (n : ℕ) (size : ℚ)
    (logoBuffer : Option (List Nat)) (decode : List Nat → Option Unit)
    (logoStyle : String) : RenderOutput :=
  { painted := paintedModules dark n size logoBuffer.isSome,
    logoOps :=
      match logoBuffer with
      | some b => addLogoToCanvas decode b logoStyle
      | none => [] }

/-! ## Format converter (`convertToFormat` / `addWatermark`) -/

inductive ExportFormat where
  | png | jpg | svg | pdf
deriving DecidableEq, Repr

/-- The imaging environment behind `sharp`: the JPEG / PNG re-encoders
(buffer and quality option) and the watermark compositing step, which may
fail (`none`). -/
structure ImagingEnv where
  jpegEncode : List Nat → Nat → List Nat
  pngEncode : List Nat → Nat → List Nat
  watermarkComposite : List Nat → Option (List Nat)

/-- `addWatermark`: composite the fixed "QR Generator Pro" label; any error
is caught, logged, and the original buffer is returned unchanged. -/
def addWatermark (env : ImagingEnv) (qrBuffer : List Nat) : List Nat :=
  match env.watermarkComposite qrBuffer with
  | some b => b
  | none => qrBuffer

/-- `convertToFormat`: optionally watermark, then re-encode for `png`/`jpg`
(quality 90) and pass the raster bytes through unchanged for `svg`/`pdf`. -/
def convertToFormat (env : ImagingEnv) (qrBuffer : List Nat)
    (format : ExportFormat) (addWm : Bool) : List Nat :=
  let processedBuffer := if addWm then addWatermark env qrBuffer else qrBuffer
  match format with
  | ExportFormat.jpg => env.jpegEncode processedBuffer 90
  | ExportFormat.png => env.pngEncode processedBuffer 90
  | ExportFormat.svg => processedBuffer
  | ExportFormat.pdf => processedBuffer

/-! ## Subscription store: `getSubscriptionInfo` with its expiry side effect -/

def isCurrentStatus (s : SubStatus) : Bool :=
  decide (s = SubStatus.ACTIVE) || decide (s = SubStatus.TRIALING) ||
    decide (s = SubStatus.PAST_DUE)

/-- Fold step realizing `orderBy: { createdAt: 'desc' }` + `findFirst`:
keep the record with the greatest `createdAt`. -/
def pickLatest (acc : Option Subscription) (r : Subscription) : Option Subscription :=
  match acc with
  | none => some r
  | some b => if r.createdAt > b.createdAt then some r else some b

/-- `prisma.subscription.findFirst` over the user's rows with status in
ACTIVE / TRIALING / PAST_DUE, newest `createdAt` first. -/
def findFirstCurrent (userId : Nat) (db : List Subscription) : Option Subscription :=
  (db.filter fun r => decide (r.userId = userId) && isCurrentStatus r.status).foldl
    pickLatest none

/-- `expireTrial`: set the row's status to EXPIRED, re-read the row by id,
and insert a FREE ACTIVE fallback row for its user.  `freshId` and `now`
stand for the database-generated id and `createdAt` of the inserted row. -/
def expireTrial (subId freshId : Nat) (now : Int) (db : List Subscription) :
    List Subscription :=
  let db1 := db.map fun r =>
    if r.id = subId then { r with status := SubStatus.EXPIRED } else r
  match db1.find? (fun r => decide (r.id = subId)) with
  | some expiredSub =>
      db1 ++ [{ id := freshId, userId := expiredSub.userId, planType := PlanType.FREE,
                status := SubStatus.ACTIVE, trialStart := none, trialEnd := none,
                currentPeriodEnd := none, createdAt := now }]
  | none => db1

/-- `getSubscriptionInfo` as a state transition: compute the info of the
current subscription, and — when it is a TRIAL with a `trialEnd`, computed
`trialDaysLeft` zero, and status TRIALING — run `expireTrial` on the store. -/
def getSubscriptionInfo (userId freshId : Nat) (now : Int) (db : List Subscription) :
    Option SubscriptionInfo × List Subscription :=
  match findFirstCurrent userId db with
  | none => (none, db)
  | some sub =>
      let info := subscriptionInfoOf sub now
      let db2 :=
        if decide (sub.planType = PlanType.TRIAL) && sub.trialEnd.isSome &&
             decide (info.trialDaysLeft = 0) && decide (sub.status = SubStatus.TRIALING)
        then expireTrial sub.id freshId now db
        else db
      (some info, db2)

/-! ## Claims C1–C3 -/

/-- C1: for a plan with a finite `qr_generated` quota `q` (`q ≠ -1`), and a
user not on an expired trial, `canPerformAction _ 'qr_generated'` allows
exactly when the current monthly `QR_GENERATED` usage is strictly below `q`
(so usage `= q` denies and usage `= q - 1` allows). -/
theorem C1_qr_quota_boundary (info : Option SubscriptionInfo) (qrU apiU dynC : Nat)
    (hq : (planLimits (planTypeOf info)).qrCodesPerMonth ≠ -1)
    (ht : trialExpired info = false) :
    (canPerformAction info qrU apiU dynC ActionKind.qr_generated).allowed =
      decide ((qrU : Int) < (planLimits (planTypeOf info)).qrCodesPerMonth) := by
  by_cases h : (qrU : Int) ≥ (planLimits (planTypeOf info)).qrCodesPerMonth
  · simp [canPerformAction, ht, hq, h, not_lt.mpr h]
  · simp [canPerformAction, ht, hq, h, lt_of_not_ge h]

/-- C1 witness: a FREE-tier user (quota 10) is denied at usage 10 and
allowed at usage 9. -/
theorem C1_qr_quota_boundary_witness :
    ((planLimits (planTypeOf (some ⟨PlanType.FREE, SubStatus.ACTIVE, 0, false, none⟩))).qrCodesPerMonth ≠ -1
      ∧ trialExpired (some ⟨PlanType.FREE, SubStatus.ACTIVE, 0, false, none⟩) = false)
    ∧ (canPerformAction (some ⟨PlanType.FREE, SubStatus.ACTIVE, 0, false, none⟩) 10 0 0
        ActionKind.qr_generated).allowed =
        decide ((10 : Nat) < (planLimits (planTypeOf (some ⟨PlanType.FREE, SubStatus.ACTIVE, 0, false, none⟩))).qrCodesPerMonth)
    ∧ (canPerformAction (some ⟨PlanType.FREE, SubStatus.ACTIVE, 0, false, none⟩) 9 0 0
        ActionKind.qr_generated).allowed =
        decide ((9 : Nat) < (planLimits (planTypeOf (some ⟨PlanType.FREE, SubStatus.ACTIVE, 0, false, none⟩))).qrCodesPerMonth) :=
  ⟨⟨by decide, by decide⟩,
   C1_qr_quota_boundary _ 10 0 0 (by decide) (by decide),
   C1_qr_quota_boundary _ 9 0 0 (by decide) (by decide)⟩

/-- C2: a TRIAL subscription whose computed remaining trial days is zero is
denied for every action kind, with `upgradeRequired := true` and the reason
"Trial has expired", regardless of every usage counter. -/
theorem C2_trial_expired_denies_all (sub : Subscription) (now : Int)
    (qrU apiU dynC : Nat) (a : ActionKind)
    (hp : (subscriptionInfoOf sub now).planType = PlanType.TRIAL)
    (hd : (subscriptionInfoOf sub now).trialDaysLeft = 0) :
    canPerformAction (some (subscriptionInfoOf sub now)) qrU apiU dynC a =
      { allowed := false, reason := some "Trial has expired", upgradeRequired := some true } := by
  have hactive : (subscriptionInfoOf sub now).isTrialActive = false := by
    cases hte : sub.trialEnd with
    | none => simp [subscriptionInfoOf, hte]
    | some te =>
        by_cases hpt : sub.planType = PlanType.TRIAL
        · have hx : (0 : Int) ⊔ ceilDiv (te - now) msPerDay = 0 := by
            simpa [subscriptionInfoOf, hte, hpt] using hd
          simp [subscriptionInfoOf, hte, hpt, hx]
        · simp [subscriptionInfoOf, hte, hpt]
  have hexp : trialExpired (some (subscriptionInfoOf sub now)) = true := by
    simp [trialExpired, hp, hactive]
  simp [canPerformAction, hexp]

/-- C2 witness: a trial that ended at time 0, read at time `now = 5` ms,
is denied for `api_call` even with all counters at zero. -/
theorem C2_trial_expired_denies_all_witness :
    ((subscriptionInfoOf ⟨1, 7, PlanType.TRIAL, SubStatus.TRIALING, some 0, some 0, none, 0⟩ 5).planType = PlanType.TRIAL
      ∧ (subscriptionInfoOf ⟨1, 7, PlanType.TRIAL, SubStatus.TRIALING, some 0, some 0, none, 0⟩ 5).trialDaysLeft = 0)
    ∧ canPerformAction (some (subscriptionInfoOf ⟨1, 7, PlanType.TRIAL, SubStatus.TRIALING, some 0, some 0, none, 0⟩ 5)) 0 0 0
        ActionKind.api_call =
        { allowed := false, reason := some "Trial has expired", upgradeRequired := some true } :=
  ⟨⟨by decide, by decide⟩,
   C2_trial_expired_denies_all _ 5 0 0 0 ActionKind.api_call (by decide) (by decide)⟩

/-- C3: an ENTERPRISE-tier user is allowed every action kind regardless of
the monthly usage counters and the live dynamic-QR count. -/
theorem C3_enterprise_always_allowed (i : SubscriptionInfo)
    (qrU apiU dynC : Nat) (a : ActionKind)
    (h : i.planType = PlanType.ENTERPRISE) :
    canPerformAction (some i) qrU apiU dynC a =
      { allowed := true, reason := none, upgradeRequired := none } := by
  have hexp : trialExpired (some i) = false := by
    simp [trialExpired, h]
  cases a <;> simp [canPerformAction, hexp, planTypeOf, h, planLimits]

/-! ### Helper lemmas for the vCard proofs -/

lemma anyFilterEq {α : Type} (p q : α → Bool) (l : List α) :
    (l.filter p).any q = l.any (fun a => p a && q a) := by
  induction l with
  | nil => rfl
  | cons a t ih =>
      by_cases h : p a = true
      · simp [List.filter_cons, h, ih]
      · simp only [Bool.not_eq_true] at h
        simp [List.filter_cons, h, ih]

lemma dropWhile_append_singleton {c : Char} (hc : wsChar c = false) :
    ∀ l : List Char, ∃ t : List Char, List.dropWhile wsChar (l ++ [c]) = t ++ [c] := by
  intro l
  induction l with
  | nil => exact ⟨[], by simp [List.dropWhile, hc]⟩
  | cons a t ih =>
      by_cases ha : wsChar a = true
      · obtain ⟨u, hu⟩ := ih
        exact ⟨u, by simp [List.dropWhile, ha, hu]⟩
      · simp only [Bool.not_eq_true] at ha
        exact ⟨a :: t, by simp [List.dropWhile, ha]⟩

lemma trimChars_cons_head {c : Char} (hc : wsChar c = false) (cs : List Char) :
    ∃ ds : List Char, trimChars (c :: cs) = c :: ds := by
  unfold trimChars
  have h1 : List.dropWhile wsChar (c :: cs) = c :: cs := by
    simp [List.dropWhile, hc]
  rw [h1]
  have h2 : (c :: cs).reverse = cs.reverse ++ [c] := by simp
  rw [h2]
  obtain ⟨t, ht⟩ := dropWhile_append_singleton hc cs.reverse
  rw [ht]
  exact ⟨t.reverse, by simp⟩

lemma fn_line_head (f l : String) :
    ∃ ds : List Char, (jsTrim ("FN:" ++ f ++ " " ++ l)).data = 'F' :: ds := by
  have hdat : ("FN:" ++ f ++ " " ++ l).data = 'F' :: ('N' :: ':' :: f.data ++ ' ' :: l.data) := by
    simp [String.data_append]
  show ∃ ds, trimChars ("FN:" ++ f ++ " " ++ l).data = 'F' :: ds
  rw [hdat]
  exact trimChars_cons_head (by decide) _

lemma string_append_ne_empty (pfx s : String) (h : pfx.data ≠ []) : decide (pfx ++ s = "") = false := by
  rw [decide_eq_false_iff_not]
  intro hEq
  have : (pfx ++ s).data = [] := by rw [hEq]
  rw [String.data_append] at this
  exact h (List.append_eq_nil.mp this).1

lemma data_ne_nil_of_ne_empty (s : String) (h : s ≠ "") : s.data ≠ [] := by
  intro hd
  apply h
  apply String.ext
  rw [hd]

lemma endsColon_append (pfx s : String) (h : s ≠ "") :
    endsColon (pfx ++ s) = endsColon s := by
  unfold endsColon
  rw [String.data_append, List.getLast?_append_of_ne_nil _ (data_ne_nil_of_ne_empty s h)]

/-- The filtered-take-2 step: both first lines are kept. -/
lemma filter_take_two (a b : String) (rest : List String)
    (ha : keepLine a = true) (hb : keepLine b = true) :
    ((a :: b :: rest).filter keepLine).take 2 = [a, b] := by
  simp [List.filter_cons, ha, hb]

lemma filter_getLast (front : List String) (a : String) (ha : keepLine a = true) :
    ((front ++ [a]).filter keepLine).getLast? = some a := by
  rw [List.filter_append]
  have : List.filter keepLine [a] = [a] := by simp [List.filter, ha]
  rw [this, List.getLast?_concat]

/-- C3 witness: ENTERPRISE allows `qr_generated` and `dynamic_qr` even with
every counter at 10,000,000. -/
theorem C3_enterprise_always_allowed_witness :
    (PlanType.ENTERPRISE = PlanType.ENTERPRISE)
    ∧ canPerformAction (some ⟨PlanType.ENTERPRISE, SubStatus.ACTIVE, 0, false, none⟩)
        10000000 10000000 10000000 ActionKind.qr_generated =
        { allowed := true, reason := none, upgradeRequired := none }
    ∧ canPerformAction (some ⟨PlanType.ENTERPRISE, SubStatus.ACTIVE, 0, false, none⟩)
        10000000 10000000 10000000 ActionKind.dynamic_qr =
        { allowed := true, reason := none, upgradeRequired := none } :=
  ⟨rfl,
   C3_enterprise_always_allowed _ 10000000 10000000 10000000 ActionKind.qr_generated rfl,
   C3_enterprise_always_allowed _ 10000000 10000000 10000000 ActionKind.dynamic_qr rfl⟩

/-! ## Claim C4: SOCIAL content -/

/-- C4 counterexample: an unrecognized non-empty platform ("myspace") does
NOT default to the twitter base URL — JS property access yields `undefined`,
which string-concatenation coerces to the literal "undefined"; and
`.replace('@', '')` removes the first '@' anywhere, not only a leading one. -/
theorem C4_social_counterexample :
    socialContent (some "myspace") (some "bob") = "undefinedbob"
    ∧ socialContent (some "myspace") (some "bob") ≠ "https://twitter.com/bob"
    ∧ socialContent (some "twitter") (some "a@b") = "https://twitter.com/ab"
    ∧ socialContent (some "twitter") (some "a@b") ≠ "https://twitter.com/a@b" :=
  ⟨rfl, by decide, rfl, by decide⟩

lemma removeFirstAmp_id (l : List Char) (h : '@' ∉ l) : removeFirstAmp l = l := by
  induction l with
  | nil => rfl
  | cons c cs ih =>
      have hc : ¬(c = '@') := fun hEq => h (hEq ▸ List.mem_cons_self c cs)
      simp only [removeFirstAmp, if_neg hc]
      rw [ih (fun hm => h (List.mem_cons_of_mem c hm))]

/-- C4 amended: each of the seven recognized platforms maps to its fixed
base URL; the platform defaults to twitter only when absent or empty; an
unrecognized non-empty platform concatenates the literal string
"undefined"; and the handle transformation removes the first '@'
occurrence wherever it is (a leading '@' in particular). -/
theorem C4_social_amended :
    (∀ h : Option String, socialContent none h = "https://twitter.com/" ++ stripFirstAt (h.getD ""))
    ∧ (∀ h : Option String, socialContent (some "") h = "https://twitter.com/" ++ stripFirstAt (h.getD ""))
    ∧ (∀ h : Option String, socialContent (some "twitter") h = "https://twitter.com/" ++ stripFirstAt (h.getD ""))
    ∧ (∀ h : Option String, socialContent (some "instagram") h = "https://instagram.com/" ++ stripFirstAt (h.getD ""))
    ∧ (∀ h : Option String, socialContent (some "facebook") h = "https://facebook.com/" ++ stripFirstAt (h.getD ""))
    ∧ (∀ h : Option String, socialContent (some "linkedin") h = "https://linkedin.com/in/" ++ stripFirstAt (h.getD ""))
    ∧ (∀ h : Option String, socialContent (some "youtube") h = "https://youtube.com/@" ++ stripFirstAt (h.getD ""))
    ∧ (∀ h : Option String, socialContent (some "tiktok") h = "https://tiktok.com/@" ++ stripFirstAt (h.getD ""))
    ∧ (∀ h : Option String, socialContent (some "github") h = "https://github.com/" ++ stripFirstAt (h.getD ""))
    ∧ (∀ (p : String) (h : Option String), p ≠ "" → socialUrlsLookup p = none →
        socialContent (some p) h = "undefined" ++ stripFirstAt (h.getD ""))
    ∧ (∀ s : String, stripFirstAt ("@" ++ s) = s)
    ∧ (∀ s : String, '@' ∉ s.data → stripFirstAt s = s) := by
  refine ⟨fun h => rfl, fun h => rfl, fun h => rfl, fun h => rfl, fun h => rfl,
          fun h => rfl, fun h => rfl, fun h => rfl, fun h => rfl, ?_, ?_, ?_⟩
  · intro p h hp hlk
    simp [socialContent, jsFalsyOr, hp, hlk, jsUndefinedCoerce]
  · intro s
    cases s with
    | mk d => rfl
  · intro s hs
    cases s with
    | mk d =>
        show String.mk (removeFirstAmp d) = String.mk d
        rw [removeFirstAmp_id d hs]

/-- C4 amended witness: the unrecognized-platform clause applied at
platform "myspace" with handle "@street@art". -/
theorem C4_social_amended_witness :
    (("myspace" : String) ≠ "" ∧ socialUrlsLookup "myspace" = none)
    ∧ socialContent (some "myspace") (some "@street@art") =
        "undefined" ++ stripFirstAt "@street@art" :=
  ⟨⟨by decide, rfl⟩,
   C4_social_amended.2.2.2.2.2.2.2.2.2.1 "myspace" (some "@street@art") (by decide) rfl⟩

/-! ## Claim C5: VCARD content -/

/-- C5 counterexample: organization "Acme:" is present and nonempty — after
substitution the candidate line is "ORG:Acme:", which carries the value
"Acme:" after the ORG separator colon — yet the line is dropped, because the
code's filter drops any line whose final character is ':'.  So lines are not
dropped "exactly when nothing follows the colon". -/
theorem C5_vcard_counterexample :
    vcardContent ⟨some "Jane", none, some "Acme:", none, none, none⟩ =
      "BEGIN:VCARD\nVERSION:3.0\nFN:Jane\nEND:VCARD"
    ∧ hasLineHead2 (vcardKeptLines ⟨some "Jane", none, some "Acme:", none, none, none⟩) 'O' 'R' = false
    ∧ jsTruthy (some "Acme:") = true :=
  ⟨rfl, rfl, rfl⟩

lemma keepLine_append (pfx s : String) (hp : pfx.data ≠ []) (hs : s ≠ "") :
    keepLine (pfx ++ s) = !endsColon s := by
  unfold keepLine
  rw [string_append_ne_empty pfx s hp, endsColon_append pfx s hs]
  rfl

lemma optLine_term_eq (pfx : String) (v : Option String) (c1 c2 : Char)
    (hp : pfx.data ≠ [])
    (hhead : ∀ s : String, s ≠ "" → decide ((pfx ++ s).data.take 2 = [c1, c2]) = true) :
    (keepLine (optLine pfx v) && decide ((optLine pfx v).data.take 2 = [c1, c2])) =
      (jsTruthy v && !endsColon (v.getD "")) := by
  cases v with
  | none => rfl
  | some s =>
      by_cases hs : s = ""
      · subst hs; rfl
      · have ht : jsTruthy (some s) = true := by simp [jsTruthy, hs]
        simp only [optLine, ht, if_true, Option.getD_some]
        rw [hhead s hs, keepLine_append pfx s hp hs]
        simp [ht]

lemma optLine_term_ne (pfx : String) (v : Option String) (c1 c2 : Char)
    (hhead : ∀ s : String, s ≠ "" → decide ((pfx ++ s).data.take 2 = [c1, c2]) = false) :
    (keepLine (optLine pfx v) && decide ((optLine pfx v).data.take 2 = [c1, c2])) = false := by
  cases v with
  | none => rfl
  | some s =>
      by_cases hs : s = ""
      · subst hs; rfl
      · have ht : jsTruthy (some s) = true := by simp [jsTruthy, hs]
        simp only [optLine, ht, if_true, Option.getD_some]
        rw [hhead s hs]
        simp

lemma fn_term_ne (f l : String) (c1 c2 : Char) (h : c1 ≠ 'F') :
    (keepLine (jsTrim ("FN:" ++ f ++ " " ++ l)) &&
      decide ((jsTrim ("FN:" ++ f ++ " " ++ l)).data.take 2 = [c1, c2])) = false := by
  obtain ⟨ds, hds⟩ := fn_line_head f l
  have hdec : decide ((jsTrim ("FN:" ++ f ++ " " ++ l)).data.take 2 = [c1, c2]) = false := by
    rw [decide_eq_false_iff_not]
    intro hEq
    rw [hds] at hEq
    rw [List.take_succ_cons] at hEq
    injection hEq with h1 _
    exact h h1.symm
  rw [hdec]
  simp

/-- C5 amended: every VCARD render starts with the BEGIN:VCARD and
VERSION:3.0 lines and ends with END:VCARD; each optional ORG/TEL/EMAIL/URL
line is present exactly when its field is present with a nonempty value
whose last character is not ':' (a candidate line is dropped when, after
substitution, it is empty or ends with ':', so a field value itself ending
in ':' is dropped too); and the Jane instance has an FN:Jane line and no
ORG line. -/
theorem C5_vcard_amended (v : VcardData) :
    (vcardKeptLines v).take 2 = ["BEGIN:VCARD", "VERSION:3.0"]
    ∧ (vcardKeptLines v).getLast? = some "END:VCARD"
    ∧ hasLineHead2 (vcardKeptLines v) 'O' 'R' =
        (jsTruthy v.organization && !endsColon (v.organization.getD ""))
    ∧ hasLineHead2 (vcardKeptLines v) 'T' 'E' =
        (jsTruthy v.phone && !endsColon (v.phone.getD ""))
    ∧ hasLineHead2 (vcardKeptLines v) 'E' 'M' =
        (jsTruthy v.email && !endsColon (v.email.getD ""))
    ∧ hasLineHead2 (vcardKeptLines v) 'U' 'R' =
        (jsTruthy v.url && !endsColon (v.url.getD ""))
    ∧ vcardContent ⟨some "Jane", none, none, none, none, none⟩ =
        "BEGIN:VCARD\nVERSION:3.0\nFN:Jane\nEND:VCARD" := by
  refine ⟨?_, ?_, ?_, ?_, ?_, ?_, rfl⟩
  · exact filter_take_two _ _ _ (by decide) (by decide)
  · have hsplit : vcardRawLines v =
        ["BEGIN:VCARD", "VERSION:3.0",
         jsTrim ("FN:" ++ v.firstName.getD "" ++ " " ++ v.lastName.getD ""),
         optLine "ORG:" v.organization, optLine "TEL:" v.phone,
         optLine "EMAIL:" v.email, optLine "URL:" v.url] ++ ["END:VCARD"] := rfl
    show ((vcardRawLines v).filter keepLine).getLast? = _
    rw [hsplit]
    exact filter_getLast _ _ (by decide)
  · unfold hasLineHead2 vcardKeptLines
    rw [anyFilterEq]
    simp only [vcardRawLines, List.any_cons, List.any_nil]
    rw [fn_term_ne _ _ 'O' 'R' (by decide),
        optLine_term_eq "ORG:" v.organization 'O' 'R' (by decide) (fun s _ => rfl),
        optLine_term_ne "TEL:" v.phone 'O' 'R' (fun s _ => rfl),
        optLine_term_ne "EMAIL:" v.email 'O' 'R' (fun s _ => rfl),
        optLine_term_ne "URL:" v.url 'O' 'R' (fun s _ => rfl),
        show (keepLine "BEGIN:VCARD" && decide ("BEGIN:VCARD".data.take 2 = ['O', 'R'])) = false from rfl,
        show (keepLine "VERSION:3.0" && decide ("VERSION:3.0".data.take 2 = ['O', 'R'])) = false from rfl,
        show (keepLine "END:VCARD" && decide ("END:VCARD".data.take 2 = ['O', 'R'])) = false from rfl]
    simp
  · unfold hasLineHead2 vcardKeptLines
    rw [anyFilterEq]
    simp only [vcardRawLines, List.any_cons, List.any_nil]
    rw [fn_term_ne _ _ 'T' 'E' (by decide),
        optLine_term_ne "ORG:" v.organization 'T' 'E' (fun s _ => rfl),
        optLine_term_eq "TEL:" v.phone 'T' 'E' (by decide) (fun s _ => rfl),
        optLine_term_ne "EMAIL:" v.email 'T' 'E' (fun s _ => rfl),
        optLine_term_ne "URL:" v.url 'T' 'E' (fun s _ => rfl),
        show (keepLine "BEGIN:VCARD" && decide ("BEGIN:VCARD".data.take 2 = ['T', 'E'])) = false from rfl,
        show (keepLine "VERSION:3.0" && decide ("VERSION:3.0".data.take 2 = ['T', 'E'])) = false from rfl,
        show (keepLine "END:VCARD" && decide ("END:VCARD".data.take 2 = ['T', 'E'])) = false from rfl]
    simp
  · unfold hasLineHead2 vcardKeptLines
    rw [anyFilterEq]
    simp only [vcardRawLines, List.any_cons, List.any_nil]
    rw [fn_term_ne _ _ 'E' 'M' (by decide),
        optLine_term_ne "ORG:" v.organization 'E' 'M' (fun s _ => rfl),
        optLine_term_ne "TEL:" v.phone 'E' 'M' (fun s _ => rfl),
        optLine_term_eq "EMAIL:" v.email 'E' 'M' (by decide) (fun s _ => rfl),
        optLine_term_ne "URL:" v.url 'E' 'M' (fun s _ => rfl),
        show (keepLine "BEGIN:VCARD" && decide ("BEGIN:VCARD".data.take 2 = ['E', 'M'])) = false from rfl,
        show (keepLine "VERSION:3.0" && decide ("VERSION:3.0".data.take 2 = ['E', 'M'])) = false from rfl,
        show (keepLine "END:VCARD" && decide ("END:VCARD".data.take 2 = ['E', 'M'])) = false from rfl]
    simp
  · unfold hasLineHead2 vcardKeptLines
    rw [anyFilterEq]
    simp only [vcardRawLines, List.any_cons, List.any_nil]
    rw [fn_term_ne _ _ 'U' 'R' (by decide),
        optLine_term_ne "ORG:" v.organization 'U' 'R' (fun s _ => rfl),
        optLine_term_ne "TEL:" v.phone 'U' 'R' (fun s _ => rfl),
        optLine_term_ne "EMAIL:" v.email 'U' 'R' (fun s _ => rfl),
        optLine_term_eq "URL:" v.url 'U' 'R' (by decide) (fun s _ => rfl),
        show (keepLine "BEGIN:VCARD" && decide ("BEGIN:VCARD".data.take 2 = ['U', 'R'])) = false from rfl,
        show (keepLine "VERSION:3.0" && decide ("VERSION:3.0".data.take 2 = ['U', 'R'])) = false from rfl,
        show (keepLine "END:VCARD" && decide ("END:VCARD".data.take 2 = ['U', 'R'])) = false from rfl]
    simp

/-! ## Claims C6 and C9: the styled renderer's keep-out zone -/

lemma mem_paintedModules (dark : ℕ → ℕ → Bool) (n : ℕ) (size : ℚ) (hasLogo : Bool)
    (row col : ℕ) :
    ((row, col) ∈ paintedModules dark n size hasLogo) ↔
      (row < n ∧ col < n ∧ dark col row = true ∧
        skipModule size n hasLogo row col = false) := by
  unfold paintedModules
  simp only [List.mem_filter, List.mem_flatMap, List.mem_map, List.mem_range,
    Prod.mk.injEq, Bool.and_eq_true, Bool.not_eq_true']
  constructor
  · rintro ⟨⟨r, hr, c, hc, hrc1, hrc2⟩, hdark, hskip⟩
    subst hrc1; subst hrc2
    exact ⟨hr, hc, hdark, hskip⟩
  · rintro ⟨hr, hc, hdark, hskip⟩
    exact ⟨⟨row, hr, col, hc, rfl, rfl⟩, hdark, hskip⟩

lemma skipModule_eq_spec (size : ℚ) (n : ℕ) (hasLogo : Bool) (row col : ℕ) :
    skipModule size n hasLogo row col =
      (hasLogo && decide (specKeepOutZone size ((col : ℚ) * cellSize size n)
        ((row : ℚ) * cellSize size n))) := by
  cases hasLogo with
  | false => rfl
  | true =>
      have hstart : logoAreaStart size true = (size - size / 4) / 2 := by
        simp only [logoAreaStart, logoAreaSizeOf, if_true]
        ring
      have hend : logoAreaEnd size true = (size - size / 4) / 2 + size / 4 := by
        simp only [logoAreaEnd, logoAreaStart, logoAreaSizeOf, if_true]
        ring
      unfold skipModule specKeepOutZone
      rw [hstart, hend]
      simp [Bool.and_assoc]

lemma bool_and_decide_eq_false (b : Bool) (p : Prop) [Decidable p] :
    ((b && decide p) = false) ↔ ¬(b = true ∧ p) := by
  cases b <;> simp

/-- C6: a dark module is painted iff its top-left corner
`(col * cellSize, row * cellSize)` does NOT fall inside the centered square
keep-out zone of side `0.25 × canvasSizePx` while a logo buffer is
provided; with no logo buffer every dark module is painted. -/
theorem C6_keepout_zone (dark : ℕ → ℕ → Bool) (n : ℕ) (size : ℚ) (hasLogo : Bool)
    (row col : ℕ) :
    ((row, col) ∈ paintedModules dark n size hasLogo) ↔
      (row < n ∧ col < n ∧ dark col row = true ∧
        ¬(hasLogo = true ∧ specKeepOutZone size ((col : ℚ) * cellSize size n)
            ((row : ℚ) * cellSize size n))) := by
  rw [mem_paintedModules, skipModule_eq_spec, bool_and_decide_eq_false]

/-- C9: when the provided logo buffer fails to decode, the render still
reserves the keep-out zone (painted modules are exactly the no-logo painted
modules outside the zone) while emitting no logo drawing operation and no
background patch, leaving a blank background-colored hole in the center. -/
theorem C9_logo_decode_failure (dark : ℕ → ℕ → Bool) (n : ℕ) (size : ℚ)
    (decode : List Nat → Option Unit) (b : List Nat) (logoStyle : String)
    (hfail : decode b = none) :
    (generateStyledQrCode dark n size (some b) decode logoStyle).logoOps = []
    ∧ ∀ row col : ℕ,
        ((row, col) ∈ (generateStyledQrCode dark n size (some b) decode logoStyle).painted ↔
          ((row, col) ∈ (generateStyledQrCode dark n size none decode logoStyle).painted ∧
            ¬ specKeepOutZone size ((col : ℚ) * cellSize size n) ((row : ℚ) * cellSize size n))) := by
  constructor
  · simp [generateStyledQrCode, addLogoToCanvas, hfail]
  · intro row col
    show (row, col) ∈ paintedModules dark n size true ↔
      ((row, col) ∈ paintedModules dark n size false ∧ _)
    rw [mem_paintedModules, mem_paintedModules, skipModule_eq_spec, skipModule_eq_spec,
      bool_and_decide_eq_false, bool_and_decide_eq_false]
    simp only [Bool.false_eq_true, false_and, not_false_eq_true, and_true, true_and]
    tauto

/-- C9 witness: a 2×2 all-dark grid at canvas size 8 with an undecodable
logo buffer; module (0, 0) lies outside the zone and is painted in both
renders. -/
theorem C9_logo_decode_failure_witness :
    ((fun _ : List Nat => (none : Option Unit)) [1] = none)
    ∧ (generateStyledQrCode (fun _ _ => true) 2 8 (some [1]) (fun _ => none) "square").logoOps = []
    ∧ ((0, 0) ∈ (generateStyledQrCode (fun _ _ => true) 2 8 (some [1]) (fun _ => none) "square").painted ↔
        ((0, 0) ∈ (generateStyledQrCode (fun _ _ => true) 2 8 none (fun _ => none) "square").painted ∧
          ¬ specKeepOutZone 8 (((0 : ℕ) : ℚ) * cellSize 8 2) (((0 : ℕ) : ℚ) * cellSize 8 2))) :=
  ⟨rfl,
   (C9_logo_decode_failure (fun _ _ => true) 2 8 (fun _ => none) [1] "square" rfl).1,
   (C9_logo_decode_failure (fun _ _ => true) 2 8 (fun _ => none) [1] "square" rfl).2 0 0⟩

/-! ## Claims C7 and C10: format conversion and watermarking -/

/-- C7: `svg` and `pdf` pass the raster bytes through unchanged when
`watermark = false`; with `watermark = true` they return exactly the
watermarked bytes with no further format conversion; `png` and `jpg` are
handed to the re-encoders with quality 90. -/
theorem C7_convert_passthrough (env : ImagingEnv) (buf wm : List Nat)
    (hwm : env.watermarkComposite buf = some wm) :
    convertToFormat env buf ExportFormat.svg false = buf
    ∧ convertToFormat env buf ExportFormat.pdf false = buf
    ∧ convertToFormat env buf ExportFormat.svg true = addWatermark env buf
    ∧ convertToFormat env buf ExportFormat.pdf true = addWatermark env buf
    ∧ convertToFormat env buf ExportFormat.svg true = wm
    ∧ convertToFormat env buf ExportFormat.pdf true = wm
    ∧ (∀ w : Bool, convertToFormat env buf ExportFormat.jpg w =
        env.jpegEncode (if w then addWatermark env buf else buf) 90)
    ∧ (∀ w : Bool, convertToFormat env buf ExportFormat.png w =
        env.pngEncode (if w then addWatermark env buf else buf) 90) := by
  have hw : addWatermark env buf = wm := by
    simp [addWatermark, hwm]
  refine ⟨rfl, rfl, rfl, rfl, ?_, ?_, ?_, ?_⟩
  · show addWatermark env buf = wm
    exact hw
  · show addWatermark env buf = wm
    exact hw
  · intro w; cases w <;> rfl
  · intro w; cases w <;> rfl

/-- C7 witness: a concrete imaging environment (prepend the quality for
JPEG, append it for PNG, prepend a 0 byte as the watermark) applied to the
buffer [5]. -/
theorem C7_convert_passthrough_witness :
    (ImagingEnv.mk (fun b q => q :: b) (fun b q => b ++ [q])
        (fun b => some (0 :: b))).watermarkComposite [5] = some [0, 5]
    ∧ convertToFormat (ImagingEnv.mk (fun b q => q :: b) (fun b q => b ++ [q])
        (fun b => some (0 :: b))) [5] ExportFormat.svg true = [0, 5]
    ∧ convertToFormat (ImagingEnv.mk (fun b q => q :: b) (fun b q => b ++ [q])
        (fun b => some (0 :: b))) [5] ExportFormat.svg false = [5] :=
  ⟨rfl,
   (C7_convert_passthrough _ [5] [0, 5] rfl).2.2.2.2.1,
   (C7_convert_passthrough _ [5] [0, 5] rfl).1⟩

/-- C10: when watermark compositing fails, `addWatermark` catches the error
and returns the original buffer, so conversion with `addWatermark = true`
produces exactly the conversion of the unwatermarked bytes, for every
format. -/
theorem C10_watermark_failure_nonfatal (env : ImagingEnv) (buf : List Nat)
    (fmt : ExportFormat)
    (hfail : env.watermarkComposite buf = none) :
    convertToFormat env buf fmt true = convertToFormat env buf fmt false := by
  have h : addWatermark env buf = buf := by
    simp [addWatermark, hfail]
  cases fmt <;> simp [convertToFormat, h]

/-- C10 witness: an environment whose watermark step always fails, on the
buffer [7] converted to PNG. -/
theorem C10_watermark_failure_nonfatal_witness :
    (ImagingEnv.mk (fun b q => q :: b) (fun b q => b ++ [q])
        (fun _ => none)).watermarkComposite [7] = none
    ∧ convertToFormat (ImagingEnv.mk (fun b q => q :: b) (fun b q => b ++ [q])
        (fun _ => none)) [7] ExportFormat.png true =
      convertToFormat (ImagingEnv.mk (fun b q => q :: b) (fun b q => b ++ [q])
        (fun _ => none)) [7] ExportFormat.png false :=
  ⟨rfl, C10_watermark_failure_nonfatal _ [7] ExportFormat.png rfl⟩

/-! ## Claim C8: trial auto-expiry on reading subscription info -/

lemma pickLatest_foldl_mem :
    ∀ (l : List Subscription) (acc : Option Subscription) (s : Subscription),
      l.foldl pickLatest acc = some s → acc = some s ∨ s ∈ l := by
  intro l
  induction l with
  | nil => intro acc s h; exact Or.inl h
  | cons a t ih =>
      intro acc s h
      rw [List.foldl_cons] at h
      rcases ih (pickLatest acc a) s h with h1 | h2
      · cases acc with
        | none =>
            have ha : a = s := by simpa [pickLatest] using h1
            exact Or.inr (ha ▸ List.mem_cons_self a t)
        | some b =>
            simp only [pickLatest] at h1
            by_cases hc : a.createdAt > b.createdAt
            · rw [if_pos hc] at h1
              injection h1 with h1
              exact Or.inr (h1 ▸ List.mem_cons_self a t)
            · rw [if_neg hc] at h1
              injection h1 with h1
              exact Or.inl (congrArg some h1)
      · exact Or.inr (List.mem_cons_of_mem a h2)

lemma findFirstCurrent_mem (userId : Nat) (db : List Subscription) (s : Subscription)
    (h : findFirstCurrent userId db = some s) :
    s ∈ db ∧ s.userId = userId ∧ isCurrentStatus s.status = true := by
  unfold findFirstCurrent at h
  rcases pickLatest_foldl_mem _ none s h with h1 | h2
  · exact absurd h1 (by simp)
  · rw [List.mem_filter] at h2
    obtain ⟨hmem, hpred⟩ := h2
    rw [Bool.and_eq_true, decide_eq_true_eq] at hpred
    exact ⟨hmem, hpred.1, hpred.2⟩

lemma trialDaysLeft_zero (sub : Subscription) (now te : Int)
    (hte : sub.trialEnd = some te) (hpt : sub.planType = PlanType.TRIAL)
    (hle : te ≤ now) :
    (subscriptionInfoOf sub now).trialDaysLeft = 0 := by
  have h2 : ceilDiv (te - now) msPerDay ≤ 0 := by
    unfold ceilDiv
    have h3 : (0 : Int) ≤ (-(te - now)).fdiv msPerDay :=
      Int.fdiv_nonneg (by omega) (by norm_num [msPerDay])
    omega
  simp [subscriptionInfoOf, hte, hpt, max_eq_left h2]

/-- C8: reading subscription info for a user whose current subscription is
a TRIAL in status TRIALING with `trialEnd` in the past marks that row
EXPIRED and inserts a FREE ACTIVE row for the same user.  (`hfresh` and
`huniq` are store-integrity side conditions: the generated id is fresh and
row ids identify the user.) -/
theorem C8_trial_autoexpiry (db : List Subscription) (userId freshId : Nat)
    (now te : Int) (sub : Subscription)
    (hfind : findFirstCurrent userId db = some sub)
    (hpt : sub.planType = PlanType.TRIAL)
    (hst : sub.status = SubStatus.TRIALING)
    (hte : sub.trialEnd = some te)
    (hpast : te ≤ now)
    (hfresh : freshId ≠ sub.id)
    (huniq : ∀ r ∈ db, r.id = sub.id → r.userId = sub.userId) :
    (∀ r ∈ (getSubscriptionInfo userId freshId now db).2,
        r.id = sub.id → r.status = SubStatus.EXPIRED)
    ∧ ∃ r ∈ (getSubscriptionInfo userId freshId now db).2,
        r.userId = sub.userId ∧ r.planType = PlanType.FREE ∧
          r.status = SubStatus.ACTIVE := by
  have hdays := trialDaysLeft_zero sub now te hte hpt hpast
  have hdb2 : (getSubscriptionInfo userId freshId now db).2 =
      expireTrial sub.id freshId now db := by
    unfold getSubscriptionInfo
    rw [hfind]
    simp [hpt, hst, hte, hdays]
  rw [hdb2]
  obtain ⟨hmem, _, _⟩ := findFirstCurrent_mem userId db sub hfind
  set db1 := db.map (fun r =>
    if r.id = sub.id then { r with status := SubStatus.EXPIRED } else r) with hdb1
  have hmem1 : ({ sub with status := SubStatus.EXPIRED } : Subscription) ∈ db1 := by
    rw [hdb1]
    refine List.mem_map.mpr ⟨sub, hmem, ?_⟩
    rw [if_pos rfl]
  have hsome : ∃ e, db1.find? (fun r => decide (r.id = sub.id)) = some e := by
    have h4 : (db1.find? (fun r => decide (r.id = sub.id))).isSome := by
      rw [List.find?_isSome]
      exact ⟨_, hmem1, by simp⟩
    exact Option.isSome_iff_exists.mp h4
  obtain ⟨e, he⟩ := hsome
  have heid : e.id = sub.id := by
    have h5 := List.find?_some he
    simpa using h5
  have hemem : e ∈ db1 := List.mem_of_find?_eq_some he
  have heuser : e.userId = sub.userId := by
    rw [hdb1] at hemem
    obtain ⟨r0, hr0mem, hr0eq⟩ := List.mem_map.mp hemem
    by_cases h0 : r0.id = sub.id
    · rw [if_pos h0] at hr0eq
      have h6 : e.userId = r0.userId := by rw [← hr0eq]
      rw [h6]
      exact huniq r0 hr0mem h0
    · rw [if_neg h0] at hr0eq
      exact absurd (hr0eq ▸ heid) h0
  have hexp : expireTrial sub.id freshId now db =
      db1 ++ [{ id := freshId, userId := e.userId, planType := PlanType.FREE,
                status := SubStatus.ACTIVE, trialStart := none, trialEnd := none,
                currentPeriodEnd := none, createdAt := now }] := by
    unfold expireTrial
    rw [← hdb1]
    simp only [he]
  rw [hexp]
  constructor
  · intro r hr hid
    rcases List.mem_append.mp hr with h1 | h2
    · rw [hdb1] at h1
      obtain ⟨r0, hr0mem, hr0eq⟩ := List.mem_map.mp h1
      by_cases h0 : r0.id = sub.id
      · rw [if_pos h0] at hr0eq
        rw [← hr0eq]
      · rw [if_neg h0] at hr0eq
        exact absurd (hr0eq ▸ hid) h0
    · rw [List.mem_singleton] at h2
      subst h2
      exact absurd hid hfresh
  · exact ⟨_, List.mem_append.mpr (Or.inr (List.mem_singleton.mpr rfl)),
      heuser, rfl, rfl⟩

/-- C8 witness: a one-row store holding a TRIALING trial that ended at time
0, read at time 5 with fresh id 2. -/
theorem C8_trial_autoexpiry_witness :
    (findFirstCurrent 7 [⟨1, 7, PlanType.TRIAL, SubStatus.TRIALING, some 0, some 0, none, 0⟩] =
        some ⟨1, 7, PlanType.TRIAL, SubStatus.TRIALING, some 0, some 0, none, 0⟩
      ∧ (2 : Nat) ≠ 1 ∧ (0 : Int) ≤ 5)
    ∧ ((∀ r ∈ (getSubscriptionInfo 7 2 5
          [⟨1, 7, PlanType.TRIAL, SubStatus.TRIALING, some 0, some 0, none, 0⟩]).2,
          r.id = 1 → r.status = SubStatus.EXPIRED)
      ∧ ∃ r ∈ (getSubscriptionInfo 7 2 5
          [⟨1, 7, PlanType.TRIAL, SubStatus.TRIALING, some 0, some 0, none, 0⟩]).2,
          r.userId = 7 ∧ r.planType = PlanType.FREE ∧ r.status = SubStatus.ACTIVE) :=
  ⟨⟨by decide, by decide, by decide⟩,
   C8_trial_autoexpiry
     [⟨1, 7, PlanType.TRIAL, SubStatus.TRIALING, some 0, some 0, none, 0⟩] 7 2 5 0
     ⟨1, 7, PlanType.TRIAL, SubStatus.TRIALING, some 0, some 0, none, 0⟩
     (by decide) rfl rfl rfl (by decide) (by decide) (by decide)⟩
